import Mathlib

/-!
Verification of the `music_stem_separator` repository against its
natural-language specification.

The repository is a thin Python CLI wrapper around external audio
libraries (librosa for analysis, spleeter for stem separation).  We give
a shallow embedding of its data model and operations:

* Python `float` values are modelled as `ℚ` (every value is a pure
  pass-through from library calls; the program performs no floating
  point arithmetic of its own, only the identity conversion
  `float(tempo)`).
* Python `Path` values are modelled as `String`.
* The external libraries (librosa, spleeter) are modelled as explicit
  environment records of functions; exceptions raised by the libraries
  are modelled with `Except String`.
* `logger.info` / `logger.error` calls are modelled by an explicit log:
  each operation returns the list of log messages it emits alongside
  its result.
* The filesystem, where relevant, is modelled as an explicit record of
  lists of existing file and directory paths.
-/

set_option autoImplicit false

namespace MusicStemSeparator

/-- Severity level of a log message (`logger.info`, `logger.error`, `logger.debug`). -/
inductive LogLevel where
  | info
  | error
  | debug
deriving DecidableEq, Repr

/-- One message emitted through the `music_stem_separator` logger. -/
structure LogMsg where
  level : LogLevel
  text : String
deriving DecidableEq, Repr

/-- Embedding of the pydantic model `AudioFeatures` from
`src/music_stem_separator/analyzer.py`: fields `path : Path`,
`bpm : float`, `key : str`. -/
structure AudioFeatures where
  path : String
  bpm : ℚ
  key : String
deriving DecidableEq, Repr

/-- Embedding of the class `AudioAnalyzer`'s instance attributes, set in
`__init__` (`sample_rate`, `bit_depth`). -/
structure AudioAnalyzer where
  sample_rate : Nat
  bit_depth : Nat
deriving DecidableEq, Repr

/-- Environment of librosa library calls used by `analyzer.py`:
`librosa.load(file_path, sr=..., mono=True)` returning samples `y` and
the sample rate `sr`, or raising; and `librosa.beat.beat_track(y=y, sr=sr)`
returning the tempo estimate and the beat frames. -/
structure LibrosaEnv where
  load : String → Nat → Except String (List ℚ × Nat)
  beat_track : List ℚ → Nat → ℚ × List Nat

/-- Embedding of the in-place field assignment `features.path = file_path`
performed by `AudioAnalyzer.analyze_file` on a pydantic `AudioFeatures`
instance (pydantic models are mutable by default). -/
def set_path (features : AudioFeatures) (file_path : String) : AudioFeatures :=
  { features with path := file_path }

namespace AudioAnalyzer

/-- Embedding of `AudioAnalyzer._extract_features(y, sr)`: estimates the
tempo via `librosa.beat.beat_track`, uses the hardcoded placeholder key
`"C"` (the TODO in the source), and constructs an `AudioFeatures` record
with the placeholder path `Path("")`. -/
def _extract_features (env : LibrosaEnv) (y : List ℚ) (sr : Nat) : AudioFeatures :=
  let tempo := (env.beat_track y sr).1
  { path := ""
    bpm := tempo
    key := "C" }

/-- Embedding of `AudioAnalyzer.analyze_file(file_path)`: logs an info
message, loads the file via `librosa.load` (logging and re-raising on
failure), extracts features, assigns the real path over the placeholder,
and returns the features.  The first component is the log. -/
def analyze_file (env : LibrosaEnv) (a : AudioAnalyzer) (file_path : String) :
    List LogMsg × Except String AudioFeatures :=
  let log0 : List LogMsg := [⟨LogLevel.info, "Analyzing audio file: " ++ file_path⟩]
  match env.load file_path a.sample_rate with
  | Except.error e =>
      (log0 ++ [⟨LogLevel.error, "Error loading audio file: " ++ e⟩], Except.error e)
  | Except.ok (y, sr) =>
      let features := _extract_features env y sr
      (log0, Except.ok (set_path features file_path))

end AudioAnalyzer

/-- Concrete librosa environment whose load always succeeds, for witnesses. -/
def env0 : LibrosaEnv :=
  { load := fun _ _ => Except.ok ([1, 0, -1], 48000)
    beat_track := fun _ _ => (120, [0, 24]) }

/-- Concrete librosa environment whose load always fails, for witnesses. -/
def envFail : LibrosaEnv :=
  { load := fun _ _ => Except.error "load failed"
    beat_track := fun _ _ => (0, []) }

/-- A concrete analyzer instance with the default constructor arguments. -/
def a0 : AudioAnalyzer := { sample_rate := 48000, bit_depth := 16 }

/-- C1: for every audio input successfully loaded, `analyze_file` returns
an `AudioFeatures` record whose `key` field is the hardcoded placeholder
string `"C"`, regardless of the audio content. -/
theorem analyze_file_key_is_C (env : LibrosaEnv) (a : AudioAnalyzer)
    (file_path : String) (y : List ℚ) (sr : Nat)
    (h : env.load file_path a.sample_rate = Except.ok (y, sr)) :
    ∃ f : AudioFeatures,
      (AudioAnalyzer.analyze_file env a file_path).2 = Except.ok f ∧ f.key = "C" := by
  refine ⟨set_path (AudioAnalyzer._extract_features env y sr) file_path, ?_, rfl⟩
  simp [AudioAnalyzer.analyze_file, h]

/-- Witness for C1 at a concrete environment and file. -/
theorem analyze_file_key_is_C_witness :
    env0.load "song.wav" a0.sample_rate = Except.ok ([1, 0, -1], 48000) ∧
      ∃ f : AudioFeatures,
        (AudioAnalyzer.analyze_file env0 a0 "song.wav").2 = Except.ok f ∧ f.key = "C" :=
  ⟨rfl, analyze_file_key_is_C env0 a0 "song.wav" [1, 0, -1] 48000 rfl⟩

/-- C3: for every valid (successfully loaded) audio file, `analyze_file`
returns a features object whose `bpm` field is a numeric value (a `ℚ`,
modelling the Python float) and whose `key` field is a `String`. -/
theorem analyze_file_returns_typed_features (env : LibrosaEnv) (a : AudioAnalyzer)
    (file_path : String) (y : List ℚ) (sr : Nat)
    (h : env.load file_path a.sample_rate = Except.ok (y, sr)) :
    ∃ (b : ℚ) (k : String),
      (AudioAnalyzer.analyze_file env a file_path).2 =
        Except.ok { path := file_path, bpm := b, key := k } := by
  refine ⟨(env.beat_track y sr).1, "C", ?_⟩
  simp [AudioAnalyzer.analyze_file, h, AudioAnalyzer._extract_features, set_path]

/-- Witness for C3 at a concrete environment and file. -/
theorem analyze_file_returns_typed_features_witness :
    env0.load "song.wav" a0.sample_rate = Except.ok ([1, 0, -1], 48000) ∧
      ∃ (b : ℚ) (k : String),
        (AudioAnalyzer.analyze_file env0 a0 "song.wav").2 =
          Except.ok { path := "song.wav", bpm := b, key := k } :=
  ⟨rfl, analyze_file_returns_typed_features env0 a0 "song.wav" [1, 0, -1] 48000 rfl⟩

/-- C9: for every file path whose load succeeds, the returned record's
`path` field equals the file path argument; the placeholder empty path
set by `_extract_features` at construction is always overwritten before
return. -/
theorem analyze_file_sets_path (env : LibrosaEnv) (a : AudioAnalyzer)
    (file_path : String) (y : List ℚ) (sr : Nat)
    (h : env.load file_path a.sample_rate = Except.ok (y, sr)) :
    (AudioAnalyzer._extract_features env y sr).path = "" ∧
      ∃ f : AudioFeatures,
        (AudioAnalyzer.analyze_file env a file_path).2 = Except.ok f ∧
          f.path = file_path := by
  refine ⟨rfl, set_path (AudioAnalyzer._extract_features env y sr) file_path, ?_, rfl⟩
  simp [AudioAnalyzer.analyze_file, h]

/-- Witness for C9 at a concrete environment and file. -/
theorem analyze_file_sets_path_witness :
    env0.load "song.wav" a0.sample_rate = Except.ok ([1, 0, -1], 48000) ∧
      ((AudioAnalyzer._extract_features env0 [1, 0, -1] 48000).path = "" ∧
        ∃ f : AudioFeatures,
          (AudioAnalyzer.analyze_file env0 a0 "song.wav").2 = Except.ok f ∧
            f.path = "song.wav") :=
  ⟨rfl, analyze_file_sets_path env0 a0 "song.wav" [1, 0, -1] 48000 rfl⟩

/-- Embedding of the pydantic model `StemSeparationResult` from
`src/music_stem_separator/separator.py`: fields `input_file : Path`,
`output_dir : Path`, `stems : dict[str, Path]`.  The Python dict,
populated by appending in iteration order, is modelled as an
association list. -/
structure StemSeparationResult where
  input_file : String
  output_dir : String
  stems : List (String × String)
deriving DecidableEq, Repr

/-- Embedding of the class `StemSeparator`'s instance attributes set in
`__init__` (`model_name`, `output_dir`). -/
structure StemSeparator where
  model_name : String
  output_dir : String
deriving DecidableEq, Repr

/-- Environment of spleeter library calls used by `separator.py`:
`separator.separate_to_file(input, output_dir, ...)` transforms the set
of files on disk (or raises), and `separator._get_stems_for_model()`
yields the stem names of the configured model.  The filesystem is the
list of existing file paths. -/
structure SpleeterEnv where
  separate_to_file : String → String → List String → Except String (List String)
  get_stems_for_model : String → List String

namespace StemSeparator

/-- Embedding of `StemSeparator.separate(input_file)`: logs an info
message, calls `separate_to_file` (any exception propagates unchanged,
with no try/except around it), then builds the `stems` dict by iterating
the model's stems and keeping each stem whose output file
`output_dir/{stem}.wav` exists. -/
def separate (env : SpleeterEnv) (s : StemSeparator) (fs : List String)
    (input_file : String) :
    List LogMsg × Except String (StemSeparationResult × List String) :=
  let log0 : List LogMsg := [⟨LogLevel.info, "Separating stems from " ++ input_file⟩]
  match env.separate_to_file input_file s.output_dir fs with
  | Except.error e => (log0, Except.error e)
  | Except.ok fs' =>
      let stems := (env.get_stems_for_model s.model_name).filterMap fun stem =>
        let stem_file := s.output_dir ++ "/" ++ stem ++ ".wav"
        if stem_file ∈ fs' then some (stem, stem_file) else none
      (log0, Except.ok ({ input_file := input_file, output_dir := s.output_dir,
                          stems := stems }, fs'))

end StemSeparator

/-- A concrete separator instance matching the test fixture. -/
def s0 : StemSeparator := { model_name := "4stems", output_dir := "test_output" }

/-- Concrete spleeter environment whose separation writes all four stem
files of the `4stems` model, for witnesses. -/
def senv0 : SpleeterEnv :=
  { separate_to_file := fun _ out fs =>
      Except.ok (fs ++ [out ++ "/vocals.wav", out ++ "/drums.wav",
                        out ++ "/bass.wav", out ++ "/other.wav"])
    get_stems_for_model := fun m =>
      if m = "4stems" then ["vocals", "drums", "bass", "other"]
      else ["vocals", "accompaniment"] }

/-- Concrete spleeter environment whose separation always fails, for
counterexamples. -/
def senvFail : SpleeterEnv :=
  { separate_to_file := fun _ _ _ => Except.error "separation failed"
    get_stems_for_model := fun _ => ["vocals", "drums", "bass", "other"] }

/-- Helper: a `filterMap` keeping every element reproduces the mapped list. -/
theorem filterMap_if_mem_all {l fs' : List String} (g : String → String)
    (hall : ∀ x ∈ l, g x ∈ fs') :
    (l.filterMap fun stem => if g stem ∈ fs' then some (stem, g stem) else none).map
        Prod.fst = l := by
  induction l with
  | nil => rfl
  | cons a t ih =>
      have ha : g a ∈ fs' := hall a (List.mem_cons_self a t)
      have ih' := ih fun x hx => hall x (List.mem_cons_of_mem a hx)
      simp [List.filterMap_cons, ha, ih']

/-- C4: when the delegated separation call succeeds, `separate` returns a
result whose `input_file` is the given input file, whose `output_dir` is
the separator's configured output directory, and whose `stems` mapping
is exactly the requested model's stems, each mapped to its expected
output file `output_dir/{stem}.wav`, restricted to the files that exist
after separation; in particular every key is a stem of the requested
model, and when every expected stem file exists the keys are exactly the
model's stems. -/
theorem separate_result_spec (env : SpleeterEnv) (s : StemSeparator)
    (fs : List String) (input_file : String) (fs' : List String)
    (h : env.separate_to_file input_file s.output_dir fs = Except.ok fs') :
    ∃ r : StemSeparationResult,
      (StemSeparator.separate env s fs input_file).2 = Except.ok (r, fs') ∧
      r.input_file = input_file ∧
      r.output_dir = s.output_dir ∧
      r.stems = ((env.get_stems_for_model s.model_name).filterMap fun stem =>
        let stem_file := s.output_dir ++ "/" ++ stem ++ ".wav"
        if stem_file ∈ fs' then some (stem, stem_file) else none) ∧
      (∀ p ∈ r.stems, p.1 ∈ env.get_stems_for_model s.model_name) ∧
      ((∀ stem ∈ env.get_stems_for_model s.model_name,
          s.output_dir ++ "/" ++ stem ++ ".wav" ∈ fs') →
        r.stems.map Prod.fst = env.get_stems_for_model s.model_name) := by
  refine ⟨{ input_file := input_file, output_dir := s.output_dir,
            stems := (env.get_stems_for_model s.model_name).filterMap fun stem =>
              let stem_file := s.output_dir ++ "/" ++ stem ++ ".wav"
              if stem_file ∈ fs' then some (stem, stem_file) else none },
          ?_, rfl, rfl, rfl, ?_, ?_⟩
  · simp [StemSeparator.separate, h]
  · intro p hp
    rcases List.mem_filterMap.mp hp with ⟨stem, hstem, hsome⟩
    by_cases hmem : s.output_dir ++ "/" ++ stem ++ ".wav" ∈ fs'
    · simp only [hmem, if_pos] at hsome
      cases hsome
      exact hstem
    · simp [hmem] at hsome
  · intro hall
    exact filterMap_if_mem_all (fun stem => s.output_dir ++ "/" ++ stem ++ ".wav") hall

/-- Witness for C4 at a concrete environment, separator, filesystem and file. -/
theorem separate_result_spec_witness :
    senv0.separate_to_file "in/test.wav" s0.output_dir [] =
        Except.ok ["test_output/vocals.wav", "test_output/drums.wav",
                   "test_output/bass.wav", "test_output/other.wav"] ∧
      ∃ r : StemSeparationResult,
        (StemSeparator.separate senv0 s0 [] "in/test.wav").2 =
            Except.ok (r, ["test_output/vocals.wav", "test_output/drums.wav",
                           "test_output/bass.wav", "test_output/other.wav"]) ∧
        r.input_file = "in/test.wav" ∧
        r.output_dir = s0.output_dir ∧
        r.stems = ((senv0.get_stems_for_model s0.model_name).filterMap fun stem =>
          let stem_file := s0.output_dir ++ "/" ++ stem ++ ".wav"
          if stem_file ∈ ["test_output/vocals.wav", "test_output/drums.wav",
                          "test_output/bass.wav", "test_output/other.wav"]
          then some (stem, stem_file) else none) ∧
        (∀ p ∈ r.stems, p.1 ∈ senv0.get_stems_for_model s0.model_name) ∧
        ((∀ stem ∈ senv0.get_stems_for_model s0.model_name,
            s0.output_dir ++ "/" ++ stem ++ ".wav" ∈
              ["test_output/vocals.wav", "test_output/drums.wav",
               "test_output/bass.wav", "test_output/other.wav"]) →
          r.stems.map Prod.fst = senv0.get_stems_for_model s0.model_name) :=
  ⟨rfl, separate_result_spec senv0 s0 [] "in/test.wav"
    ["test_output/vocals.wav", "test_output/drums.wav",
     "test_output/bass.wav", "test_output/other.wav"] rfl⟩

/-- C5 counterexample: the claim says every error raised by a delegated
library call is logged before being re-raised, but when
`separate_to_file` fails the separator's log is exactly the single
initial info message — no error-level message is ever emitted, since
`StemSeparator.separate` has no try/except around the library call. -/
theorem separate_error_not_logged :
    (StemSeparator.separate senvFail s0 [] "x.wav").2 =
        Except.error "separation failed" ∧
      (StemSeparator.separate senvFail s0 [] "x.wav").1 =
        [⟨LogLevel.info, "Separating stems from x.wav"⟩] ∧
      ((StemSeparator.separate senvFail s0 [] "x.wav").1.all fun m =>
        decide (m.level ≠ LogLevel.error)) = true :=
  ⟨rfl, rfl, rfl⟩

/-- C5 amended: every error raised by a delegated library call is
re-raised unchanged to the caller with no retry or recovery; the
analyzer additionally logs the load error (exactly one error message)
before re-raising, while the separator propagates the separation error
without logging it. -/
theorem error_propagation_amended (env : LibrosaEnv) (senv : SpleeterEnv)
    (a : AudioAnalyzer) (s : StemSeparator) (fs : List String)
    (file_path input_file e e' : String)
    (h : env.load file_path a.sample_rate = Except.error e)
    (h' : senv.separate_to_file input_file s.output_dir fs = Except.error e') :
    (AudioAnalyzer.analyze_file env a file_path).2 = Except.error e ∧
      (AudioAnalyzer.analyze_file env a file_path).1 =
        [⟨LogLevel.info, "Analyzing audio file: " ++ file_path⟩,
         ⟨LogLevel.error, "Error loading audio file: " ++ e⟩] ∧
      (StemSeparator.separate senv s fs input_file).2 = Except.error e' ∧
      (StemSeparator.separate senv s fs input_file).1 =
        [⟨LogLevel.info, "Separating stems from " ++ input_file⟩] := by
  refine ⟨?_, ?_, ?_, ?_⟩ <;>
    simp [AudioAnalyzer.analyze_file, StemSeparator.separate, h, h']

/-- Witness for the amended C5 at concrete failing environments. -/
theorem error_propagation_amended_witness :
    envFail.load "song.wav" a0.sample_rate = Except.error "load failed" ∧
      senvFail.separate_to_file "x.wav" s0.output_dir [] =
        Except.error "separation failed" ∧
      ((AudioAnalyzer.analyze_file envFail a0 "song.wav").2 =
          Except.error "load failed" ∧
        (AudioAnalyzer.analyze_file envFail a0 "song.wav").1 =
          [⟨LogLevel.info, "Analyzing audio file: " ++ "song.wav"⟩,
           ⟨LogLevel.error, "Error loading audio file: " ++ "load failed"⟩] ∧
        (StemSeparator.separate senvFail s0 [] "x.wav").2 =
          Except.error "separation failed" ∧
        (StemSeparator.separate senvFail s0 [] "x.wav").1 =
          [⟨LogLevel.info, "Separating stems from " ++ "x.wav"⟩]) :=
  ⟨rfl, rfl, error_propagation_amended envFail senvFail a0 s0 []
    "song.wav" "x.wav" "load failed" "separation failed" rfl rfl⟩

/-- C6 counterexample: the claim says no operation of the program
modifies any field of an `AudioFeatures` instance after construction,
but `analyze_file` performs the field assignment
`features.path = file_path` (embedded as `set_path`) on the instance
constructed by `_extract_features` with the placeholder path `""`,
changing it — and returns the modified instance. -/
theorem audio_features_mutated :
    (AudioAnalyzer._extract_features env0 [1, 0, -1] 48000).path = "" ∧
      set_path (AudioAnalyzer._extract_features env0 [1, 0, -1] 48000) "song.wav" ≠
        AudioAnalyzer._extract_features env0 [1, 0, -1] 48000 ∧
      (AudioAnalyzer.analyze_file env0 a0 "song.wav").2 =
        Except.ok
          (set_path (AudioAnalyzer._extract_features env0 [1, 0, -1] 48000)
            "song.wav") := by
  refine ⟨rfl, ?_, rfl⟩
  intro hcontra
  exact absurd (congrArg AudioFeatures.path hcontra) (by decide)

/-- C6 amended: `StemSeparationResult` instances are returned exactly as
constructed and never modified; `AudioFeatures` instances are modified
exactly once, by `analyze_file` overwriting the placeholder `path` field
set at construction with the real file path — the assignment changes
only the `path` field, leaving `bpm` and `key` untouched. -/
theorem record_mutation_amended (env : LibrosaEnv) (senv : SpleeterEnv)
    (a : AudioAnalyzer) (s : StemSeparator) (fs : List String)
    (file_path input_file : String) (y : List ℚ) (sr : Nat)
    (f : AudioFeatures) (p : String) (fs' : List String)
    (h : env.load file_path a.sample_rate = Except.ok (y, sr))
    (h' : senv.separate_to_file input_file s.output_dir fs = Except.ok fs') :
    (set_path f p).bpm = f.bpm ∧ (set_path f p).key = f.key ∧
      (set_path f p).path = p ∧
      (AudioAnalyzer.analyze_file env a file_path).2 =
        Except.ok (set_path (AudioAnalyzer._extract_features env y sr) file_path) ∧
      (StemSeparator.separate senv s fs input_file).2 =
        Except.ok ({ input_file := input_file, output_dir := s.output_dir,
                     stems := (senv.get_stems_for_model s.model_name).filterMap
                       fun stem =>
                         let stem_file := s.output_dir ++ "/" ++ stem ++ ".wav"
                         if stem_file ∈ fs' then some (stem, stem_file)
                         else none }, fs') := by
  refine ⟨rfl, rfl, rfl, ?_, ?_⟩ <;>
    simp [AudioAnalyzer.analyze_file, StemSeparator.separate, h, h']

/-- Witness for the amended C6 at concrete inputs. -/
theorem record_mutation_amended_witness :
    env0.load "song.wav" a0.sample_rate = Except.ok ([1, 0, -1], 48000) ∧
      senv0.separate_to_file "x.wav" s0.output_dir [] =
        Except.ok ["test_output/vocals.wav", "test_output/drums.wav",
                   "test_output/bass.wav", "test_output/other.wav"] ∧
      ((set_path { path := "a", bpm := 1, key := "D" } "b").bpm =
          AudioFeatures.bpm { path := "a", bpm := 1, key := "D" } ∧
        (set_path { path := "a", bpm := 1, key := "D" } "b").key =
          AudioFeatures.key { path := "a", bpm := 1, key := "D" } ∧
        (set_path { path := "a", bpm := 1, key := "D" } "b").path = "b" ∧
        (AudioAnalyzer.analyze_file env0 a0 "song.wav").2 =
          Except.ok
            (set_path (AudioAnalyzer._extract_features env0 [1, 0, -1] 48000)
              "song.wav") ∧
        (StemSeparator.separate senv0 s0 [] "x.wav").2 =
          Except.ok ({ input_file := "x.wav", output_dir := s0.output_dir,
                       stems := (senv0.get_stems_for_model s0.model_name).filterMap
                         fun stem =>
                           let stem_file := s0.output_dir ++ "/" ++ stem ++ ".wav"
                           if stem_file ∈
                               ["test_output/vocals.wav", "test_output/drums.wav",
                                "test_output/bass.wav", "test_output/other.wav"]
                           then some (stem, stem_file) else none },
            ["test_output/vocals.wav", "test_output/drums.wav",
             "test_output/bass.wav", "test_output/other.wav"]) ) :=
  ⟨rfl, rfl, record_mutation_amended env0 senv0 a0 s0 [] "song.wav" "x.wav"
    [1, 0, -1] 48000 { path := "a", bpm := 1, key := "D" } "b"
    ["test_output/vocals.wav", "test_output/drums.wav",
     "test_output/bass.wav", "test_output/other.wav"] rfl rfl⟩

/-- Filesystem model for the CLI commands: the lists of existing file
paths and directory paths. -/
structure FS where
  files : List String
  dirs : List String
deriving DecidableEq, Repr

/-- Embedding of `StemSeparationConfig`'s default field values from
`src/music_stem_separator/config.py`. -/
structure StemSeparationConfig where
  model_name : String
  output_dir : String
  sample_rate : Nat
  bit_depth : Nat
  device : String
  shifts : Nat
deriving DecidableEq, Repr

/-- Default `StemSeparationConfig` instance (the `stem_separation` part
of `DEFAULT_CONFIG`). -/
def default_stem_separation_config : StemSeparationConfig :=
  { model_name := "htdemucs", output_dir := "stems", sample_rate := 48000
    bit_depth := 16, device := "cpu", shifts := 1 }

/-- Embedding of the body of the `analyse` CLI command in
`src/music_stem_separator/cli.py`: the output directory defaults to the
input directory, `mkdir(exist_ok=True, parents=True)` ensures it exists,
info messages are logged, and — the body being a TODO stub
(`# TODO: Implement analyzer and output generation`) — no file is read,
renamed, or written.  Returns the resulting filesystem and the log. -/
def analyse_run (input_dir : String) (output_dir : Option String)
    (skip_fingerprinting skip_bpm skip_key skip_qualitative verbose : Bool)
    (fs : FS) : FS × List LogMsg :=
  let out := output_dir.getD input_dir
  let fs' : FS :=
    { files := fs.files
      dirs := if out ∈ fs.dirs then fs.dirs else fs.dirs ++ [out] }
  let _ := verbose
  (fs',
   [⟨LogLevel.info, "Analyzing audio files in: " ++ input_dir⟩,
    ⟨LogLevel.info, "Output directory: " ++ out⟩,
    ⟨LogLevel.info,
      "Analysis features: "
        ++ (if skip_fingerprinting then "" else "MusicBrainz") ++ " "
        ++ (if skip_bpm then "" else "BPM") ++ " "
        ++ (if skip_key then "" else "Key") ++ " "
        ++ (if skip_qualitative then "" else "Qualitative")⟩])

/-- A click option of a CLI command: its name, whether it is a boolean
flag, and its declared default value if any. -/
structure OptionSpec where
  name : String
  is_flag : Bool
  default_value : Option String
deriving DecidableEq, Repr

/-- A click subcommand: its registered name, its positional arguments,
and its options. -/
structure CommandSpec where
  name : String
  arguments : List String
  options : List OptionSpec
deriving DecidableEq, Repr

/-- Embedding of the click command registered by decorating
`def analyse` in `cli.py`.  Click derives the command name from the
Python function name, so it is registered as `analyse` (British
spelling). -/
def analyse_command : CommandSpec :=
  { name := "analyse"
    arguments := ["input_dir"]
    options := [⟨"--output-dir", false, none⟩,
                ⟨"--skip-fingerprinting", true, none⟩,
                ⟨"--skip-bpm", true, none⟩,
                ⟨"--skip-key", true, none⟩,
                ⟨"--skip-qualitative", true, none⟩,
                ⟨"--verbose", true, none⟩] }

/-- Embedding of the click command registered by decorating `def split`
in `cli.py`. -/
def split_command : CommandSpec :=
  { name := "split"
    arguments := ["input_dir"]
    options := [⟨"--output-dir", false, none⟩,
                ⟨"--model", false, some default_stem_separation_config.model_name⟩,
                ⟨"--verbose", true, none⟩] }

/-- The subcommands registered on the `cli` click group. -/
def cli_commands : List CommandSpec := [analyse_command, split_command]

/-- C2: the claim (and the `analyse` command's own docstring) says a
renamed WAV file and a sidecar JSON metadata file are written per input
file, but the command body is a stub: for every invocation, on every
filesystem, the set of files is left unchanged — in particular, on a
directory containing `music/song.wav` nothing at all changes. -/
theorem analyse_writes_no_files (input_dir : String) (output_dir : Option String)
    (skip_fingerprinting skip_bpm skip_key skip_qualitative verbose : Bool)
    (fs : FS) :
    ((analyse_run input_dir output_dir skip_fingerprinting skip_bpm skip_key
        skip_qualitative verbose fs).1).files = fs.files ∧
      (analyse_run "music" none false false false false false
          { files := ["music/song.wav"], dirs := ["music"] }).1 =
        { files := ["music/song.wav"], dirs := ["music"] } := by
  constructor
  · rfl
  · decide

/-- C8 counterexample: the registered subcommand names are `analyse` and
`split`; no subcommand is named `analyze`, contrary to the claim. -/
theorem no_subcommand_named_analyze :
    cli_commands.map CommandSpec.name = ["analyse", "split"] ∧
      ¬ "analyze" ∈ cli_commands.map CommandSpec.name := by
  decide

/-- C8 amended: the command-line surface consists of exactly two
subcommands, named `analyse` (the spelling click derives from the
function name) and `split`, each taking an `input_dir` positional
argument and an optional (non-flag, defaultable) `--output-dir`
option. -/
theorem cli_surface_amended :
    cli_commands.length = 2 ∧
      cli_commands.map CommandSpec.name = ["analyse", "split"] ∧
      (cli_commands.all fun c =>
        decide (c.arguments = ["input_dir"]) &&
          decide (OptionSpec.mk "--output-dir" false none ∈ c.options)) = true := by
  decide

/-- Top-level class names defined by `src/music_stem_separator/analyzer.py`. -/
def analyzer_module_classes : List String := ["AudioFeatures", "AudioAnalyzer"]

/-- Method names of the class `AudioAnalyzer` in `analyzer.py`. -/
def audioAnalyzer_methods : List String :=
  ["__init__", "analyze_file", "_extract_features"]

/-- Field names declared by the pydantic model `AudioFeatures`. -/
def audioFeatures_fields : List String := ["path", "bpm", "key"]

/-- Names `tests/test_analyzer.py` imports from
`music_stem_separator.analyzer`. -/
def test_analyzer_imported_names : List String :=
  ["AudioAnalyzer", "AudioAnalysisResult"]

/-- Modelled from the spec: the test-referenced audio-features record
variant `AudioAnalysisResult`, which is missing from `src/` — per the
spec, file path, tempo estimate (float, modelled as `ℚ`), key label,
and a confidence score (float, modelled as `ℚ`). -/
structure AudioAnalysisResult where
  path : String
  bpm : ℚ
  key : String
  confidence : ℚ
deriving DecidableEq, Repr

/-- C7: the tests import `AudioAnalysisResult` (the confidence-bearing
variant) from the analyzer module and call an `analyze` method, but the
module defines neither: its only classes are `AudioFeatures` (whose
fields are exactly `path`, `bpm`, `key` — no `confidence`) and
`AudioAnalyzer`, whose only analysis method is `analyze_file`. -/
theorem analysis_result_variant_missing :
    "AudioAnalysisResult" ∈ test_analyzer_imported_names ∧
      ¬ "AudioAnalysisResult" ∈ analyzer_module_classes ∧
      ¬ "analyze" ∈ audioAnalyzer_methods ∧
      ¬ "confidence" ∈ audioFeatures_fields := by
  decide

end MusicStemSeparator
